import Mathlib

/-!
Shallow embedding of `src/database.py`, a demonstration script that seeds an
Oracle `customer` table, packs selected integer columns into a `vector(n,
float32)` column named `profile`, and runs a nearest-neighbour similarity
query over it.

Modelling conventions:
* Python strings are `String`; `str.lower` / `str.upper` / `str.title` /
  `str.split(",")` are re-implemented structurally over `List Char` so that
  they reduce inside the kernel (`String.splitOn` and friends are defined by
  well-founded recursion and do not).
* Every value this program ever stores in the float32 vector column is an
  integer of magnitude below 2^24, hence exactly representable in float32;
  the stored vectors are therefore modelled as `List ℤ` and the
  int-to-float32 cast is exact (the identity on these values).
* The database is modelled as an optional table state (the `customer` table
  may or may not exist); one row per record, engine-generated identity ids.
* Python exceptions are `Except` / an `Option Err` side channel where the
  source mutates module state before raising.
* The database engine itself (DDL semantics, the `vector_distance` ordering)
  is an external collaborator: `ORDER BY vector_distance(_, _, EUCLIDEAN) …
  FETCH FIRST k ROWS ONLY` is modelled as sorting by squared euclidean
  distance (ordering floats by euclidean distance coincides with ordering by
  its square, since the square root is monotone) and taking a prefix; SQL
  NULL distances sort last in an ascending ORDER BY.
-/

/-- Python `s.split(",")` on the character list, accumulator holds the
current (reversed) fragment. -/
def splitCommaAux : List Char → List Char → List (List Char)
  | [], acc => [acc.reverse]
  | c :: cs, acc =>
    if c = ',' then acc.reverse :: splitCommaAux cs [] else splitCommaAux cs (c :: acc)

/-- Python `s.split(",")`: `"a,b".split(",") = ["a","b"]`, `"".split(",") = [""]`. -/
def splitComma (s : String) : List String :=
  (splitCommaAux s.data []).map String.mk

/-- Python `s.lower()` (basic-latin letters, the only ones this program uses). -/
def strLower (s : String) : String := String.mk (s.data.map Char.toLower)

/-- Python `s.upper()` (basic-latin letters, the only ones this program uses). -/
def strUpper (s : String) : String := String.mk (s.data.map Char.toUpper)

/-- Python `s.title()`: upper-case every letter that follows a non-letter,
lower-case every letter that follows a letter.  The boolean argument tells
whether the previous character was a letter. -/
def titleAux : Bool → List Char → List Char
  | _, [] => []
  | prevAlpha, c :: cs =>
    (if c.isAlpha then (if prevAlpha then c.toLower else c.toUpper) else c) ::
      titleAux c.isAlpha cs

/-- Python `s.title()`. -/
def strTitle (s : String) : String := String.mk (titleAux false s.data)

/-- Errors surfaced by the modelled operations: Python exceptions raised by
the validating setters, `oracledb.DatabaseError`s, and the `TypeError` hit
when subscripting the `None` returned by a fetch with no matching row. -/
inductive Err where
  | validation (msg : String)
  | tableDoesNotExist
  | nameAlreadyUsed
  | columnDoesNotExist
  | columnAlreadyExists
  | invalidIdentifier
  | typeError
deriving DecidableEq

/-- One row of the `customer` table: `id int generated as identity primary
key, name varchar2(30) not null, age int not null, income int not null`,
plus the dynamically added nullable `profile vector(_, float32)` column. -/
structure Row where
  id : Nat
  name : String
  age : ℤ
  income : ℤ
  profile : Option (List ℤ)
deriving DecidableEq

/-- The `customer` table: its rows, the declared width of the `profile`
vector column when that column exists, and the next identity-column value. -/
structure TableState where
  rows : List Row
  profileWidth : Option Nat
  nextId : Nat
deriving DecidableEq

/-- The module-level parameter globals `columns_list`, `customer_name`,
`distance_metric` (all initialised to `""` at import time). -/
structure Params where
  columns_list : String
  customer_name : String
  distance_metric : String
deriving DecidableEq

/-- The three module globals start out as empty strings. -/
def initialParams : Params := ⟨"", "", ""⟩

/-- `set_column_list(columns)`: stores `columns.lower()` into the global
`columns_list` BEFORE validating, then raises unless the comma-separated
list has exactly 2 entries, all from the allow-list.  Returns the module
state after the call together with the raised exception, if any. -/
def set_column_list (columns : String) (p : Params) : Params × Option Err :=
  let p1 := { p with columns_list := strLower columns }
  let col_list := splitComma p1.columns_list
  if col_list.length ≠ 2 then
    (p1, some (.validation "Specify 1 or 2 columns"))
  else if col_list.all (fun item =>
      ["age", "income", "is_single", "no_children", "no_cars"].contains item) then
    (p1, none)
  else
    (p1, some (.validation
      "Column list should contain only age, inome, is_single, no_children or no_cars"))

/-- `set_customer(name)`: stores `name.title()` into the global
`customer_name` before validating it against the nine-name allow-list
(the source checks `customer_name.title()`, title-casing a second time). -/
def set_customer (name : String) (p : Params) : Params × Option Err :=
  let p1 := { p with customer_name := strTitle name }
  if ["Jessica", "David", "Matthew", "Brandon", "Joshua", "Amanda", "Lauren",
      "James", "Olivia"].contains (strTitle p1.customer_name) then
    (p1, none)
  else
    (p1, some (.validation
      "Customer name must be one of Jessica, David, Matthew, Brandon, Joshua, Amanda, Lauren, James, Olivia"))

/-- `set_distance_metric(distance)`: stores `distance.upper()` into the
global `distance_metric` before validating it (the source checks
`distance_metric.upper()`, upper-casing a second time) against an
allow-list that contains the stray name `"HAMMER"`. -/
def set_distance_metric (distance : String) (p : Params) : Params × Option Err :=
  let p1 := { p with distance_metric := strUpper distance }
  if ["COSINE", "EUCLIDEAN", "EUCLIDEAN_SQUARED", "HAMMER", "MANHATTAN",
      "JACCARD", "DOT"].contains (strUpper p1.distance_metric) then
    (p1, none)
  else
    (p1, some (.validation
      "Distance must be one of CONSINE, EUCLIDEAN, EUCLIDEAN_SQUARE, MANHATTAN, JACCARD, DOT"))

/-- The outcome of `oracledb.connect(...)` for the ambient environment:
either a session, or a raised exception with its message. -/
inductive ConnectOutcome where
  | ok (conn : Nat)
  | failed (msg : String)

/-- `get_connection()`: tries to open a session; on any failure prints
`"Connection failed!"` and falls off the end of the function, returning
`None`.  The result is the returned value paired with the lines printed. -/
def get_connection (outcome : ConnectOutcome) : Option Nat × List String :=
  match outcome with
  | .ok c => (some c, [])
  | .failed _ => (none, ["Connection failed!"])

/-- The ten fixed `(name, age, income)` seed rows of `insert_data()`. -/
def data_to_insert : List (String × ℤ × ℤ) :=
  [("John",    28, 6500),
   ("Jessica", 22, 7000),
   ("David",   31, 3900),
   ("Matthew", 38, 5200),
   ("Brandon", 35, 4700),
   ("Joshua",  25, 2600),
   ("Amanda",  33, 6500),
   ("Lauren",  39, 5500),
   ("James",   26, 3200),
   ("Olivia",  44, 8200)]

/-- Rows built by the engine for a bulk insert, ids drawn from the
identity sequence starting at the given value; `profile` is NULL (the
freshly created table has no `profile` column yet; if one exists the new
rows' value is NULL). -/
def insertRowsAux : Nat → List (String × ℤ × ℤ) → List Row
  | _, [] => []
  | n, (name, age, income) :: rest =>
    ⟨n, name, age, income, none⟩ :: insertRowsAux (n + 1) rest

/-- `insert_data()`: one `executemany` INSERT of the ten seed rows over the
module connection, one commit.  Requires the table to exist (it is only
called right after `create table` inside `create_schema`). -/
def insert_data (t : TableState) : TableState :=
  { t with
    rows := t.rows ++ insertRowsAux t.nextId data_to_insert
    nextId := t.nextId + data_to_insert.length }

/-- The table right after `create table customer (...)`: no rows, no
`profile` column, identity sequence at 1. -/
def emptyTable : TableState := { rows := [], profileWidth := none, nextId := 1 }

/-- The SQL statement `drop table if exists customer`: succeeds whether or
not the table exists, leaving no table. -/
def drop_table_if_exists (_db : Option TableState) : Except Err (Option TableState) :=
  .ok none

/-- The SQL statement `create table customer (...)`: errors if the name is
already used, otherwise creates the empty table. -/
def create_table (db : Option TableState) : Except Err (Option TableState) :=
  match db with
  | some _ => .error .nameAlreadyUsed
  | none => .ok (some emptyTable)

/-- `create_schema()`: executes `drop table if exists customer` then
`create table customer (...)` in order (the `try/except` around each
statement just re-raises, so it is transparent), then calls
`insert_data()`. -/
def create_schema (db : Option TableState) : Except Err TableState :=
  match drop_table_if_exists db with
  | .error e => .error e
  | .ok db1 =>
    match create_table db1 with
    | .error e => .error e
    | .ok none => .error .tableDoesNotExist
    | .ok (some t) => .ok (insert_data t)

/-- Value of a named column in a row, for the `select id, <columns> from
customer` built by string concatenation in `vectorize_data`: only `age` and
`income` exist in the table `create_schema` builds; any other name makes
the select fail with an invalid-identifier error. -/
def columnValue (r : Row) (c : String) : Option ℤ :=
  if c = "age" then some r.age
  else if c = "income" then some r.income
  else none

/-- `List.mapM` over `Option`, written out structurally so proofs can
recurse over it. -/
def mapOpt (f : α → Option β) : List α → Option (List β)
  | [] => some []
  | a :: as =>
    match f a, mapOpt f as with
    | some b, some bs => some (b :: bs)
    | _, _ => none

/-- Dropping a column sets every row's value of it to gone. -/
def clearProfile (r : Row) : Row := { r with profile := none }

/-- The SQL statement `alter table customer drop column profile`: errors if
the column does not exist. -/
def dropProfileColumn (st : TableState) : Except Err TableState :=
  match st.profileWidth with
  | none => .error .columnDoesNotExist
  | some _ =>
    .ok { st with profileWidth := none, rows := st.rows.map clearProfile }

/-- The SQL statement `alter table customer add profile vector(w, float32)`:
errors if the column already exists; a freshly added column is NULL in
every row. -/
def addProfileColumn (w : Nat) (st : TableState) : Except Err TableState :=
  match st.profileWidth with
  | some _ => .error .columnAlreadyExists
  | none =>
    .ok { st with profileWidth := some w, rows := st.rows.map clearProfile }

/-- The column-resize step of `vectorize_data`:
`try: drop; add  except DatabaseError: add` — if the drop (or the add
inside the `try`) raises, the handler runs the add once more on the state
the failing statement left behind. -/
def resizeProfileColumn (w : Nat) (st : TableState) : Except Err TableState :=
  match dropProfileColumn st with
  | .error _ => addProfileColumn w st
  | .ok st1 =>
    match addProfileColumn w st1 with
    | .error _ => addProfileColumn w st1
    | .ok st2 => .ok st2

/-- The compute step of `vectorize_data`: `select id, <cols> from customer`,
pack each row's selected values into a float32 array, and `executemany` the
per-id updates of `profile`, committing once. -/
def updateProfiles (cols : List String) (st : TableState) : Except Err TableState :=
  match mapOpt (fun r =>
      (mapOpt (columnValue r) cols).map (fun v => { r with profile := some v })) st.rows with
  | none => .error .invalidIdentifier
  | some rows1 => .ok { st with rows := rows1 }

/-- `vectorize_data(column_list)`: resize the `profile` column to
`len(column_list.split(","))`, then recompute every row's embedding from
the selected columns. -/
def vectorize_data (column_list : String) (st : TableState) : Except Err TableState :=
  match resizeProfileColumn (splitComma column_list).length st with
  | .error e => .error e
  | .ok st1 => updateProfiles (splitComma column_list) st1

/-- `get_customer_profiles()`: `select name, profile from customer`. -/
def get_customer_profiles (t : TableState) : List (String × Option (List ℤ)) :=
  t.rows.map (fun r => (r.name, r.profile))

/-- Squared euclidean distance between two integer vectors. -/
def sqDist (u v : List ℤ) : ℤ := (List.zipWith (fun a b => (a - b) ^ 2) u v).sum

/-- Squared euclidean distance of a possibly-NULL stored profile to a
vector (0 for NULL; every profile the claims touch is non-NULL). -/
def sqDistOpt (u : Option (List ℤ)) (v : List ℤ) : ℤ :=
  match u with
  | some u => sqDist u v
  | none => 0

/-- The sort key the engine computes for `order by vector_distance(profile,
subject, <metric>)`.  Only the `EUCLIDEAN` metric — the one the claims
exercise — is modelled: ordering by euclidean distance coincides with
ordering by its square, kept in ℤ for computability.  A NULL operand gives
a NULL distance. -/
def vectorDistanceKey (distance : String) (u v : Option (List ℤ)) : Option ℤ :=
  match u, v with
  | some u, some v =>
    if strUpper distance = "EUCLIDEAN" then some (sqDist u v) else none
  | _, _ => none

/-- Ascending ORDER BY comparison on possibly-NULL keys: NULLs sort last. -/
def keyLe : Option ℤ → Option ℤ → Bool
  | some a, some b => a ≤ b
  | some _, none => true
  | none, some _ => false
  | none, none => true

/-- Insert into a sorted list (insertion-sort step). -/
def insertLe (le : α → α → Bool) (a : α) : List α → List α
  | [] => [a]
  | b :: bs => if le a b then a :: b :: bs else b :: insertLe le a bs

/-- Insertion sort; the engine's ORDER BY (the claims' keys are pairwise
distinct, so any correct sort produces the same sequence). -/
def sortByLe (le : α → α → Bool) : List α → List α
  | [] => []
  | a :: as => insertLe le a (sortByLe le as)

/-- `get_similiar_customer_profiles(column_list, name, k, distance)` (typo
in the name as in the source; `column_list` is accepted but unused):
fetch the subject's profile by exact name match (`fetchone` returning no
row makes the `[0]` subscript raise a `TypeError`), then
`select name, profile from customer order by vector_distance(profile, :1,
<distance>) fetch first :2 rows only`. -/
def get_similiar_customer_profiles (t : TableState) ( _column_list : String)
    (name : String) (k : Nat) (distance : String) :
    Except Err (List (String × Option (List ℤ))) :=
  match t.rows.find? (fun r => r.name == name) with
  | none => .error .typeError
  | some subj =>
    let key := fun r : Row => vectorDistanceKey distance r.profile subj.profile
    let sorted := sortByLe (fun a b => keyLe (key a) (key b)) t.rows
    .ok ((sorted.take k).map (fun r => (r.name, r.profile)))

/-- The data-level run of `customers_chart(columns, distance)` (the chart
assembly and rendering are external): the validating setters, then
`create_schema()`, `vectorize_data(columns_list)` and
`get_customer_profiles()` over the rebuilt table.  Returns the final
parameter globals, the final table and the fetched profiles. -/
def customers_chart (columns distance : String) (p : Params) (db : Option TableState) :
    Except Err (Params × TableState × List (String × Option (List ℤ))) :=
  match set_column_list columns p with
  | (_, some e) => .error e
  | (p1, none) =>
    match set_distance_metric distance p1 with
    | (_, some e) => .error e
    | (p2, none) =>
      match create_schema db with
      | .error e => .error e
      | .ok t1 =>
        match vectorize_data p2.columns_list t1 with
        | .error e => .error e
        | .ok t2 => .ok (p2, t2, get_customer_profiles t2)

/-- The data-level run of `similarity_chart(columns, cust_name, distance)`
(chart assembly and rendering are external; the connection opened into the
function-local `connection` variable is modelled separately): the three
validating setters, then `create_schema()`, `vectorize_data(columns_list)`
and `get_similiar_customer_profiles(columns_list, customer_name, 3,
distance_metric)`.  Returns the final parameter globals, the final table
and the similarity result set. -/
def similarity_chart (columns cust_name distance : String) (p : Params)
    (db : Option TableState) :
    Except Err (Params × TableState × List (String × Option (List ℤ))) :=
  match set_column_list columns p with
  | (_, some e) => .error e
  | (p1, none) =>
    match set_distance_metric distance p1 with
    | (_, some e) => .error e
    | (p2, none) =>
      match set_customer cust_name p2 with
      | (_, some e) => .error e
      | (p3, none) =>
        match create_schema db with
        | .error e => .error e
        | .ok t1 =>
          match vectorize_data p3.columns_list t1 with
          | .error e => .error e
          | .ok t2 =>
            match get_similiar_customer_profiles t2 p3.columns_list
                p3.customer_name 3 p3.distance_metric with
            | .error e => .error e
            | .ok res => .ok (p3, t2, res)

/-- The table `create_schema` leaves behind: the ten seed rows, ids 1–10,
no `profile` column. -/
def seededTable : TableState :=
  { rows :=
      [⟨1, "John",    28, 6500, none⟩,
       ⟨2, "Jessica", 22, 7000, none⟩,
       ⟨3, "David",   31, 3900, none⟩,
       ⟨4, "Matthew", 38, 5200, none⟩,
       ⟨5, "Brandon", 35, 4700, none⟩,
       ⟨6, "Joshua",  25, 2600, none⟩,
       ⟨7, "Amanda",  33, 6500, none⟩,
       ⟨8, "Lauren",  39, 5500, none⟩,
       ⟨9, "James",   26, 3200, none⟩,
       ⟨10, "Olivia", 44, 8200, none⟩],
    profileWidth := none,
    nextId := 11 }

/-- `seededTable` after `vectorize_data("age,income")`: every profile is
the row's `[age, income]`. -/
def vectorizedSeed : TableState :=
  { rows :=
      [⟨1, "John",    28, 6500, some [28, 6500]⟩,
       ⟨2, "Jessica", 22, 7000, some [22, 7000]⟩,
       ⟨3, "David",   31, 3900, some [31, 3900]⟩,
       ⟨4, "Matthew", 38, 5200, some [38, 5200]⟩,
       ⟨5, "Brandon", 35, 4700, some [35, 4700]⟩,
       ⟨6, "Joshua",  25, 2600, some [25, 2600]⟩,
       ⟨7, "Amanda",  33, 6500, some [33, 6500]⟩,
       ⟨8, "Lauren",  39, 5500, some [39, 5500]⟩,
       ⟨9, "James",   26, 3200, some [26, 3200]⟩,
       ⟨10, "Olivia", 44, 8200, some [44, 8200]⟩],
    profileWidth := some 2,
    nextId := 11 }

/-- Jessica's `[age, income]` seed values, hence her embedding after
`vectorize_data("age,income")`. -/
def jessicaEmbedding : List ℤ := [22, 7000]

/-- The net effect of the column-resize step of `vectorize_data`: the
`profile` column exists with the requested width and is NULL in every
row. -/
def resizedState (w : Nat) (st : TableState) : TableState :=
  { st with profileWidth := some w, rows := st.rows.map clearProfile }

/-- Connection-identity model for the scoping behaviour of
`similarity_chart`: the module-level global `connection` and the session id
the engine will hand to the next successful `oracledb.connect` call. -/
structure ConnWorld where
  connection : Option Nat
  nextConn : Nat
deriving DecidableEq

/-- A successful `oracledb.connect()`: hands out a fresh session id. -/
def connectFresh (w : ConnWorld) : ConnWorld × Nat :=
  ({ w with nextConn := w.nextConn + 1 }, w.nextConn)

/-- `init()`: declares `global connection` and assigns the newly opened
session to the module-level global. -/
def init (w : ConnWorld) : ConnWorld :=
  let (w1, c) := connectFresh w
  { w1 with connection := some c }

/-- The session a function that merely reads `connection` without assigning
it (`create_schema`, `insert_data`, `vectorize_data`,
`get_customer_profiles`, `get_similiar_customer_profiles`) runs its cursors
over: the module-level global. -/
def opConnection (w : ConnWorld) : Option Nat := w.connection

/-- The connection behaviour of `similarity_chart`: its body contains the
assignment `connection = get_connection()` with no `global connection`
declaration, so Python binds `connection` as a function-local name visible
only inside this body; the database work the function then triggers is done
by the called functions, which read the module-level global.  Returns the
world after the call, the value of the local variable, and the session each
triggered database operation (schema rebuild and seed, vectorization,
similarity query, profile fetch) ran over. -/
def similarity_chart_sessions (w : ConnWorld) : ConnWorld × Nat × List (Option Nat) :=
  let (w1, localConn) := connectFresh w
  (w1, localConn,
    [opConnection w1, opConnection w1, opConnection w1, opConnection w1])

/-- Regardless of the database's prior contents, `create_schema` leaves the
freshly seeded ten-row table (the drop is `if exists`, so it succeeds on an
absent table as well). -/
lemma create_schema_eq (db : Option TableState) :
    create_schema db = Except.ok seededTable := by
  cases db <;> rfl

/-- Concrete run of the embedding builder over the seeded table. -/
lemma vectorize_seed_eq :
    vectorize_data "age,income" seededTable = Except.ok vectorizedSeed := rfl

/-- Concrete run of the similarity query: the three rows nearest to
Jessica's embedding are Jessica herself, John and Amanda, in that order. -/
lemma similar_to_jessica_eq :
    get_similiar_customer_profiles vectorizedSeed "age,income" "Jessica" 3 "EUCLIDEAN" =
      Except.ok [("Jessica", some [22, 7000]), ("John", some [28, 6500]),
        ("Amanda", some [33, 6500])] := rfl

/-- Full data-level run of `similarity_chart("age,income", "Jessica",
"euclidean")`: it succeeds from any prior parameter globals and any prior
database contents, and every field of the initial globals is overwritten. -/
lemma similarity_chart_run_eq (a b c : String) (db : Option TableState) :
    similarity_chart "age,income" "Jessica" "euclidean" ⟨a, b, c⟩ db =
      Except.ok (⟨"age,income", "Jessica", "EUCLIDEAN"⟩, vectorizedSeed,
        [("Jessica", some [22, 7000]), ("John", some [28, 6500]),
         ("Amanda", some [33, 6500])]) := by
  cases db <;> rfl

/-- Full data-level run of `customers_chart("age,income", "euclidean")`:
it succeeds from any prior parameter globals and any prior database
contents; the stored `customer_name` is not touched. -/
lemma customers_chart_run_eq (a b c : String) (db : Option TableState) :
    customers_chart "age,income" "euclidean" ⟨a, b, c⟩ db =
      Except.ok (⟨"age,income", b, "EUCLIDEAN"⟩, vectorizedSeed,
        get_customer_profiles vectorizedSeed) := by
  cases db <;> rfl

/-- `Char.toUpper` is idempotent: upper-casing a basic-latin letter yields a
character outside the lower-case range. -/
lemma char_toUpper_idem (c : Char) : c.toUpper.toUpper = c.toUpper := by
  unfold Char.toUpper
  by_cases h : 97 ≤ c.toNat ∧ c.toNat ≤ 122
  · rw [if_pos h]
    have hv : (Char.ofNat (c.toNat - 32)).toNat = c.toNat - 32 := by
      obtain ⟨h1, h2⟩ := h
      interval_cases hm : c.toNat <;> decide
    rw [hv, if_neg (by omega)]
  · rw [if_neg h, if_neg h]

/-- Python `.upper()` is idempotent. -/
lemma strUpper_strUpper (s : String) : strUpper (strUpper s) = strUpper s := by
  unfold strUpper
  simp [List.map_map, Function.comp_def, char_toUpper_idem]

/-- `mapOpt` preserves length. -/
lemma mapOpt_length {f : α → Option β} :
    ∀ (l : List α) (l1 : List β), mapOpt f l = some l1 → l1.length = l.length := by
  intro l
  induction l with
  | nil => intro l1 h; simp [mapOpt] at h; simp [h.symm]
  | cons a as ih =>
    intro l1 h
    unfold mapOpt at h
    cases hfa : f a <;> rw [hfa] at h
    · exact absurd h (by simp)
    · cases hrec : mapOpt f as <;> rw [hrec] at h
      · exact absurd h (by simp)
      · cases h
        simp [ih _ hrec]

/-- Every element of a `mapOpt` image comes from an element of the source. -/
lemma mapOpt_mem {f : α → Option β} :
    ∀ (l : List α) (l1 : List β), mapOpt f l = some l1 →
      ∀ b ∈ l1, ∃ a ∈ l, f a = some b := by
  intro l
  induction l with
  | nil => intro l1 h; simp [mapOpt] at h; subst h; simp
  | cons a as ih =>
    intro l1 h
    unfold mapOpt at h
    cases hfa : f a <;> rw [hfa] at h
    · exact absurd h (by simp)
    · cases hrec : mapOpt f as <;> rw [hrec] at h
      · exact absurd h (by simp)
      · cases h
        intro b hb
        rcases List.mem_cons.mp hb with hb | hb
        · exact ⟨a, List.mem_cons_self a as, hb ▸ hfa⟩
        · obtain ⟨x, hx, hfx⟩ := ih _ hrec b hb
          exact ⟨x, List.mem_cons_of_mem a hx, hfx⟩

/-- `mapOpt` succeeds when `f` succeeds on every element. -/
lemma mapOpt_isSome {f : α → Option β} :
    ∀ (l : List α), (∀ a ∈ l, (f a).isSome) → ∃ l1, mapOpt f l = some l1 := by
  intro l
  induction l with
  | nil => exact fun _ => ⟨[], rfl⟩
  | cons a as ih =>
    intro hall
    obtain ⟨b, hb⟩ := Option.isSome_iff_exists.mp (hall a (List.mem_cons_self a as))
    obtain ⟨bs, hbs⟩ := ih (fun x hx => hall x (List.mem_cons_of_mem a hx))
    exact ⟨b :: bs, by simp [mapOpt, hb, hbs]⟩

/-- If `f` preserves a row up to its profile, so does `mapOpt f`. -/
lemma mapOpt_clear {f : Row → Option Row}
    (hf : ∀ r r1, f r = some r1 → clearProfile r1 = clearProfile r) :
    ∀ (l l1 : List Row), mapOpt f l = some l1 →
      l1.map clearProfile = l.map clearProfile := by
  intro l
  induction l with
  | nil => intro l1 h; simp [mapOpt] at h; simp [h.symm]
  | cons a as ih =>
    intro l1 h
    unfold mapOpt at h
    cases hfa : f a <;> rw [hfa] at h
    · exact absurd h (by simp)
    · cases hrec : mapOpt f as <;> rw [hrec] at h
      · exact absurd h (by simp)
      · cases h
        simp [ih _ hrec, hf a _ hfa]

/-- Dropping the profile twice is dropping it once. -/
lemma clearProfile_clearProfile (r : Row) :
    clearProfile (clearProfile r) = clearProfile r := rfl

/-- The resize step never fails: when the `profile` column is absent the
drop raises, the error is swallowed, and the add still runs. -/
lemma resizeProfileColumn_eq (w : Nat) (st : TableState) :
    resizeProfileColumn w st = Except.ok (resizedState w st) := by
  unfold resizeProfileColumn dropProfileColumn addProfileColumn resizedState
  cases h : st.profileWidth <;>
    simp [h, List.map_map, Function.comp_def, clearProfile_clearProfile]

/-- `vectorize_data` is the compute step applied to the resized table. -/
lemma vectorize_data_eq (cl : String) (st : TableState) :
    vectorize_data cl st =
      updateProfiles (splitComma cl) (resizedState (splitComma cl).length st) := by
  unfold vectorize_data
  rw [resizeProfileColumn_eq]

/-- The compute step only rewrites profiles: width, id sequence and the
profile-less view of the rows are untouched. -/
lemma updateProfiles_ok_inv {cols : List String} {st st1 : TableState}
    (h : updateProfiles cols st = Except.ok st1) :
    st1.profileWidth = st.profileWidth ∧ st1.nextId = st.nextId ∧
      st1.rows.map clearProfile = st.rows.map clearProfile := by
  unfold updateProfiles at h
  cases hm : mapOpt (fun r =>
      (mapOpt (columnValue r) cols).map (fun v => { r with profile := some v })) st.rows <;>
    rw [hm] at h
  · exact absurd h (by simp)
  · cases h
    refine ⟨rfl, rfl, ?_⟩
    refine mapOpt_clear ?_ _ _ hm
    intro r r1 hr
    obtain ⟨v, hv, rfl⟩ := Option.map_eq_some'.mp hr
    rfl

/-- C5 counterexample: with no customer table present, `create_schema()`
does not raise — its drop statement is `drop table if exists customer` —
and it proceeds to create and seed the ten-row table. -/
theorem create_schema_succeeds_without_table :
    create_schema none = Except.ok seededTable ∧ seededTable.rows.length = 10 :=
  ⟨rfl, by decide⟩

/-- C5 (amended): when `create_schema()` is called — in particular when the
customer table does not exist — the drop step is guarded by `if exists` in
the SQL itself, so no error is raised and `create_schema` proceeds to
create the table and seed it with the ten sample rows. -/
theorem create_schema_drop_guarded (db : Option TableState) :
    create_schema db = Except.ok seededTable :=
  create_schema_eq db

/-- C8: for every environment in which opening the session fails,
`get_connection` prints the `"Connection failed!"` diagnostic, propagates
no exception (its result type is total), and returns no usable connection
(`None`). -/
theorem get_connection_swallows_failure (msg : String) :
    get_connection (ConnectOutcome.failed msg) = (none, ["Connection failed!"]) :=
  rfl

/-- C9: `"John"` is one of the ten seeded names inserted by `insert_data`,
yet `set_customer("John")` raises a validation error, because the subject
allow-list contains only the other nine seeded names. -/
theorem set_customer_rejects_seeded_john :
    "John" ∈ data_to_insert.map (fun row => row.1) ∧
      ((set_customer "John" initialParams).2).isSome = true := by
  decide

/-- C3 counterexample: `set_distance_metric("hammer")` succeeds although
`"HAMMER"` is not one of the six metric names COSINE, EUCLIDEAN,
EUCLIDEAN_SQUARED, MANHATTAN, JACCARD, DOT. -/
theorem set_distance_metric_accepts_hammer :
    (set_distance_metric "hammer" initialParams).2 = none ∧
      strUpper "hammer" ∉ (["COSINE", "EUCLIDEAN", "EUCLIDEAN_SQUARED",
        "MANHATTAN", "JACCARD", "DOT"] : List String) := by
  decide

/-- C3 (amended): `set_distance_metric` succeeds exactly when the
upper-cased input is one of the SEVEN names in the source allow-list —
the six valid metrics plus the stray `"HAMMER"`; every other string raises
a validation error. -/
theorem set_distance_metric_allowlist (s : String) (p : Params) :
    (set_distance_metric s p).2 = none ↔
      strUpper s ∈ (["COSINE", "EUCLIDEAN", "EUCLIDEAN_SQUARED", "HAMMER",
        "MANHATTAN", "JACCARD", "DOT"] : List String) := by
  simp only [set_distance_metric, strUpper_strUpper]
  split_ifs with h
  · simpa using h
  · simpa using h

/-- C4 counterexample: `set_column_list("age,income,age")` raises a
validation error, but the stored column selection has already been
overwritten — the process-wide parameter state is not left unchanged. -/
theorem set_column_list_mutates_on_error :
    ((set_column_list "age,income,age" initialParams).2).isSome = true ∧
      (set_column_list "age,income,age" initialParams).1 ≠ initialParams := by
  decide

/-- C4 (amended): `set_column_list` always overwrites the stored column
selection with the lower-cased input first — also on the failing paths —
while the stored subject name and distance metric are never touched; it
succeeds exactly when the comma-separated selection has exactly 2 entries,
all from the allow-list {age, income, is_single, no_children, no_cars}. -/
theorem set_column_list_spec (columns : String) (p : Params) :
    ((set_column_list columns p).1.customer_name = p.customer_name ∧
     (set_column_list columns p).1.distance_metric = p.distance_metric ∧
     (set_column_list columns p).1.columns_list = strLower columns) ∧
    ((set_column_list columns p).2 = none ↔
      ((splitComma (strLower columns)).length = 2 ∧
       ∀ c ∈ splitComma (strLower columns),
         c ∈ (["age", "income", "is_single", "no_children", "no_cars"] : List String))) := by
  simp only [set_column_list]
  split_ifs with h1 h2
  · refine ⟨⟨rfl, rfl, rfl⟩, ?_⟩
    simp [h1]
  · refine ⟨⟨rfl, rfl, rfl⟩, ?_⟩
    have hlen : (splitComma (strLower columns)).length = 2 := not_not.mp h1
    have hmem : ∀ c ∈ splitComma (strLower columns),
        c ∈ (["age", "income", "is_single", "no_children", "no_cars"] : List String) := by
      simpa using h2
    simp [hlen]
    simpa using hmem
  · refine ⟨⟨rfl, rfl, rfl⟩, ?_⟩
    have hbad : ¬ ∀ c ∈ splitComma (strLower columns),
        c ∈ (["age", "income", "is_single", "no_children", "no_cars"] : List String) := by
      simpa using h2
    simp
    intro _
    push_neg at hbad
    obtain ⟨x, hx, hnx⟩ := hbad
    exact ⟨x, hx, by simpa using hnx⟩

/-- C10: after `init()` established the process-wide connection,
`similarity_chart` opens a second session which is bound only to a
function-local variable (the returned local value is a session distinct
from the global one), the process-wide connection is unchanged when it
returns, and every database operation it triggers runs over the
process-wide connection. -/
theorem similarity_chart_preserves_global_connection (w0 : ConnWorld) :
    (similarity_chart_sessions (init w0)).1.connection = (init w0).connection ∧
    (similarity_chart_sessions (init w0)).1.nextConn = (init w0).nextConn + 1 ∧
    (∀ u ∈ (similarity_chart_sessions (init w0)).2.2, u = (init w0).connection) ∧
    some (similarity_chart_sessions (init w0)).2.1 ≠ (init w0).connection := by
  refine ⟨rfl, rfl, ?_, ?_⟩
  · intro u hu
    simp only [similarity_chart_sessions, connectFresh, opConnection,
      List.mem_cons, List.not_mem_nil, or_false] at hu
    rcases hu with h | h | h | h <;> simpa [init, connectFresh] using h
  · simp [similarity_chart_sessions, connectFresh, init]

/-- C2: after the data-level run of
`customers_chart("age,income", "euclidean")` — from any prior parameter
globals and any prior database contents — the customer table holds exactly
10 rows, and every row's `profile` embedding is non-null, has length 2, and
equals that row's `[age, income]` values (the float32 cast is exact on
these integers). -/
theorem customers_chart_overview_state (p : Params) (db : Option TableState) :
    ∃ out, customers_chart "age,income" "euclidean" p db = Except.ok out ∧
      out.2.1.rows.length = 10 ∧
      ∀ r ∈ out.2.1.rows,
        r.profile = some [r.age, r.income] ∧ r.profile.map List.length = some 2 := by
  obtain ⟨a, b, c⟩ := p
  refine ⟨_, customers_chart_run_eq a b c db, ?_, ?_⟩
  · show vectorizedSeed.rows.length = 10
    decide
  · show ∀ r ∈ vectorizedSeed.rows,
      r.profile = some [r.age, r.income] ∧ r.profile.map List.length = some 2
    decide

/-- C1: the data-level run of
`similarity_chart("age,income", "Jessica", "euclidean")` — from any prior
parameter globals and any prior database contents — returns a
nearest-neighbour result set with at most 3 entries, ordered by
non-decreasing euclidean distance between each entry's embedding and
Jessica's `[age, income]` embedding, in which no entry's distance is below
0. -/
theorem similarity_chart_jessica_top3 (p : Params) (db : Option TableState) :
    ∃ out, similarity_chart "age,income" "Jessica" "euclidean" p db = Except.ok out ∧
      out.2.2.length ≤ 3 ∧
      List.Chain' (fun x y =>
        Real.sqrt ((sqDistOpt x.2 jessicaEmbedding : ℤ) : ℝ) ≤
          Real.sqrt ((sqDistOpt y.2 jessicaEmbedding : ℤ) : ℝ)) out.2.2 ∧
      ∀ x ∈ out.2.2, 0 ≤ Real.sqrt ((sqDistOpt x.2 jessicaEmbedding : ℤ) : ℝ) := by
  obtain ⟨a, b, c⟩ := p
  refine ⟨_, similarity_chart_run_eq a b c db, by decide, ?_, ?_⟩
  · refine List.chain'_cons.mpr ⟨?_, List.chain'_cons.mpr ⟨?_, List.chain'_singleton _⟩⟩
    · show Real.sqrt ((sqDistOpt (some [(22 : ℤ), 7000]) jessicaEmbedding : ℤ) : ℝ) ≤
        Real.sqrt ((sqDistOpt (some [(28 : ℤ), 6500]) jessicaEmbedding : ℤ) : ℝ)
      apply Real.sqrt_le_sqrt
      exact_mod_cast (by decide : sqDistOpt (some [(22 : ℤ), 7000]) jessicaEmbedding ≤
        sqDistOpt (some [(28 : ℤ), 6500]) jessicaEmbedding)
    · show Real.sqrt ((sqDistOpt (some [(28 : ℤ), 6500]) jessicaEmbedding : ℤ) : ℝ) ≤
        Real.sqrt ((sqDistOpt (some [(33 : ℤ), 6500]) jessicaEmbedding : ℤ) : ℝ)
      apply Real.sqrt_le_sqrt
      exact_mod_cast (by decide : sqDistOpt (some [(28 : ℤ), 6500]) jessicaEmbedding ≤
        sqDistOpt (some [(33 : ℤ), 6500]) jessicaEmbedding)
  · intro x hx
    exact Real.sqrt_nonneg _

/-- C6: running `vectorize_data` twice in succession with the same column
selection over the same table contents is idempotent — after the second
run every row's embedding equals its embedding after the first run. -/
theorem vectorize_data_idempotent (cl : String) (st st1 : TableState)
    (h : vectorize_data cl st = Except.ok st1) :
    ∃ st2, vectorize_data cl st1 = Except.ok st2 ∧
      st2.rows.map Row.profile = st1.rows.map Row.profile := by
  rw [vectorize_data_eq] at h
  obtain ⟨_hw, hn, hr⟩ := updateProfiles_ok_inv h
  have h2 : st1.rows.map clearProfile = st.rows.map clearProfile := by
    rw [hr]
    simp [resizedState, List.map_map, Function.comp_def, clearProfile_clearProfile]
  have h3 : st1.nextId = st.nextId := hn
  have hR : resizedState (splitComma cl).length st1 =
      resizedState (splitComma cl).length st := by
    simp [resizedState, h2, h3]
  refine ⟨st1, ?_, rfl⟩
  rw [vectorize_data_eq, hR]
  exact h

/-- C6 witness: a concrete second run over the already-vectorized seed
table. -/
theorem vectorize_data_idempotent_witness :
    ∃ st2, vectorize_data "age,income" vectorizedSeed = Except.ok st2 ∧
      st2.rows.map Row.profile = vectorizedSeed.rows.map Row.profile :=
  vectorize_data_idempotent "age,income" seededTable vectorizedSeed rfl

/-- C7: whenever `vectorize_data` completes — from ANY prior table state,
whether or not the `profile` column existed before the call (when absent,
the drop raises, the error is swallowed, and the add still runs; the
resize step never fails) — the declared width of the `profile` column
equals the number of selected columns and every row's stored embedding has
exactly that length. -/
theorem vectorize_data_profile_width (cl : String) (st st1 : TableState)
    (h : vectorize_data cl st = Except.ok st1) :
    st1.profileWidth = some (splitComma cl).length ∧
    ∀ r ∈ st1.rows, ∃ v, r.profile = some v ∧ v.length = (splitComma cl).length := by
  rw [vectorize_data_eq] at h
  unfold updateProfiles at h
  cases hm : mapOpt (fun r => (mapOpt (columnValue r) (splitComma cl)).map
      (fun v => { r with profile := some v }))
      (resizedState (splitComma cl).length st).rows <;> rw [hm] at h
  · exact absurd h (by simp)
  · cases h
    refine ⟨rfl, ?_⟩
    intro r hr
    obtain ⟨x, _hx, hfx⟩ := mapOpt_mem _ _ hm r hr
    obtain ⟨v, hv, hrv⟩ := Option.map_eq_some'.mp hfx
    refine ⟨v, ?_, mapOpt_length _ _ hv⟩
    rw [← hrv]

/-- C7 witness: `vectorize_data("age,income")` over the freshly seeded
table, which has no `profile` column yet, completes (the swallowed-drop
path), and the resulting widths are 2. -/
theorem vectorize_data_profile_width_witness :
    vectorize_data "age,income" seededTable = Except.ok vectorizedSeed ∧
      (vectorizedSeed.profileWidth = some (splitComma "age,income").length ∧
       ∀ r ∈ vectorizedSeed.rows, ∃ v, r.profile = some v ∧
         v.length = (splitComma "age,income").length) :=
  ⟨rfl, vectorize_data_profile_width "age,income" seededTable vectorizedSeed rfl⟩
